import Mathlib

/-!
Shallow embedding of the RTMP ingest core of the streamX repository
(`src/rtmp/protocol.rs`, `src/rtmp/mod.rs`, `src/rtmp/handshake.rs`).

Bytes are modelled as `Nat` (a real wire byte is `< 256`; theorems that
need byte-ness take it as a hypothesis).  Rust bit operations on bytes are
rendered with division/modulo: `x >> 6` is `x / 64`, `x & 0x3f` is
`x % 64`, `x & 0x03` is `% 4`.  IEEE-754 `f64` constants appear in the
source only as fixed literals whose big-endian byte encodings are given
here as explicit byte lists; a transaction id travelling through the code
(`f64::from_be_bytes` then `to_be_bytes`) is modelled as its 8 raw bytes,
which is exact because that round trip is the identity on bits.
-/

set_option maxRecDepth 8000

namespace StreamX

/-- ASCII bytes of a string literal (all literals in the source are ASCII). -/
def asciiBytes (s : String) : List Nat := s.data.map Char.toNat

/-- Big-endian 16-bit encoding, as produced by `u16::to_be_bytes`
(a `usize` cast `as u16` first wraps, which the `% 256` captures). -/
def be16 (n : Nat) : List Nat := [n / 256 % 256, n % 256]

/-- The low three bytes of `u32::to_be_bytes`, i.e. `&(x as u32).to_be_bytes()[1..]`. -/
def be3enc (n : Nat) : List Nat := [n / 65536 % 256, n / 256 % 256, n % 256]

/-- `u32::from_be_bytes([0, a, b, c])`. -/
def be3 (a b c : Nat) : Nat := a * 65536 + b * 256 + c

/-- `u32::from_le_bytes([a, b, c, d])`. -/
def le4 (a b c d : Nat) : Nat := a + b * 256 + c * 65536 + d * 16777216

/-- Big-endian 4-byte encoding, `u32::to_be_bytes`. -/
def be4enc (n : Nat) : List Nat := [n / 16777216 % 256, n / 65536 % 256, n / 256 % 256, n % 256]

/-- `enum MessageType` from `src/rtmp/protocol.rs`. -/
inductive MessageType where
  | connect | publish | audio | video | setChunkSize | abort
  | acknowledgement | windowAcknowledgementSize | setPeerBandwidth
  | command | unknown
deriving DecidableEq, Repr

/-- `impl From<u8> for MessageType`. -/
def MessageType.fromByte (value : Nat) : MessageType :=
  if value = 1 then .setChunkSize
  else if value = 2 then .abort
  else if value = 3 then .acknowledgement
  else if value = 5 then .windowAcknowledgementSize
  else if value = 6 then .setPeerBandwidth
  else if value = 8 then .audio
  else if value = 9 then .video
  else if value = 20 then .command
  else if value = 17 then .command
  else .unknown

/-- `struct RtmpHeader` from `src/rtmp/protocol.rs`. -/
structure RtmpHeader where
  format : Nat
  chunk_stream_id : Nat
  timestamp : Nat
  message_length : Nat
  message_type_id : Nat
  message_stream_id : Nat
deriving DecidableEq, Repr

/-- The format-dependent message-header read of `RtmpHeader::parse`
(`src/rtmp/protocol.rs` lines 95-141): `offset` is the basic-header size
already consumed, `rest` the bytes after the basic header.  The source's
check `data.len() < offset + header_size → None` is the incomplete match
arm here (`rest` shorter than the 11/7/3 bytes the format requires). -/
def readMessageHeader (format csid offset : Nat) (rest : List Nat) : Option (RtmpHeader × Nat) :=
  if format = 0 then
    match rest with
    | t0 :: t1 :: t2 :: l0 :: l1 :: l2 :: ty :: s0 :: s1 :: s2 :: s3 :: _ =>
        some (⟨format, csid, be3 t0 t1 t2, be3 l0 l1 l2, ty, le4 s0 s1 s2 s3⟩, offset + 11)
    | _ => none
  else if format = 1 then
    match rest with
    | t0 :: t1 :: t2 :: l0 :: l1 :: l2 :: ty :: _ =>
        some (⟨format, csid, be3 t0 t1 t2, be3 l0 l1 l2, ty, 0⟩, offset + 7)
    | _ => none
  else if format = 2 then
    match rest with
    | t0 :: t1 :: t2 :: _ => some (⟨format, csid, be3 t0 t1 t2, 0, 0, 0⟩, offset + 3)
    | _ => none
  else some (⟨format, csid, 0, 0, 0, 0⟩, offset)

/-- `RtmpHeader::parse` from `src/rtmp/protocol.rs` (lines 70-143).
Returns the parsed header and the number of bytes consumed, or `none`
when the slice is too short (every `return None` of the source; the
source's length guards become match completeness on the list).  Bit
operations on the first byte: `>> 6` is `/ 64`, `& 0x03` is `% 4`,
`& 0x3f` is `% 64`. -/
def RtmpHeader.parse (data : List Nat) : Option (RtmpHeader × Nat) :=
  match data with
  | [] => none
  | firstByte :: rest =>
    let format := firstByte / 64 % 4      -- (first_byte >> 6) & 0x03
    let csidRaw := firstByte % 64         -- first_byte & 0x3f
    if csidRaw = 0 then
      match rest with
      | [] => none
      | b1 :: rest1 => readMessageHeader format (b1 + 64) 2 rest1
    else if csidRaw = 1 then
      match rest with
      | b1 :: b2 :: rest2 => readMessageHeader format (b2 * 256 + b1 + 64) 3 rest2
      | _ => none
    else readMessageHeader format csidRaw 1 rest

example : asciiBytes "app" = [97, 112, 112] := by decide
example : RtmpHeader.parse [] = none := by decide
example :
    RtmpHeader.parse [3, 0, 0, 0, 0, 0, 2, 8, 0, 0, 0, 0, 170, 187] =
      some (⟨0, 3, 0, 2, 8, 0⟩, 12) := by decide
example : RtmpHeader.parse [0x83, 1, 2, 3] = some (⟨2, 3, be3 1 2 3, 0, 0, 0⟩, 4) := by decide
example : RtmpHeader.parse [0xC3] = some (⟨3, 3, 0, 0, 0, 0⟩, 1) := by decide
example : RtmpHeader.parse [0, 5] = none := by decide

/-- The property-scanning loop of `parse_rtmp_connect` (lines 194-256 of
`src/rtmp/protocol.rs`).  The source walks an `offset` through `payload`;
here the remaining slice `payload[offset..]` is passed directly (`offset += k`
becomes `rest.drop k`, `payload[offset + i]` becomes `rest.getD i 0`, and a
bound check `offset + k > payload.len()` becomes `k > rest.length`).  `fuel`
dominates the iteration count (the source loop consumes at least three bytes
per iteration, so `fuel = payload.length` never runs out first).
Accumulator: `(app, flashVer, tcUrl)` byte strings. -/
def connectProps : Nat → List Nat → List Nat × List Nat × List Nat → List Nat × List Nat × List Nat
  | 0, _, acc => acc
  | fuel + 1, rest, acc =>
    if 0 < rest.length then
      if 3 ≤ rest.length ∧ rest.getD 0 0 = 0 ∧ rest.getD 1 0 = 0 ∧ rest.getD 2 0 = 9 then acc
      else if rest.length < 2 then acc
      else
        let nameLen := rest.getD 0 0 * 256 + rest.getD 1 0
        let r1 := rest.drop 2
        if nameLen > r1.length then acc
        else
          let name := r1.take nameLen
          let r2 := r1.drop nameLen
          if r2.length = 0 then acc
          else
            let vt := r2.getD 0 0
            let r3 := r2.drop 1
            if vt = 2 then
              if r3.length < 2 then acc
              else
                let vlen := r3.getD 0 0 * 256 + r3.getD 1 0
                let r4 := r3.drop 2
                if vlen > r4.length then acc
                else
                  let v := r4.take vlen
                  let acc' :=
                    if name = asciiBytes "app" then (v, acc.2.1, acc.2.2)
                    else if name = asciiBytes "flashVer" then (acc.1, v, acc.2.2)
                    else if name = asciiBytes "tcUrl" then (acc.1, acc.2.1, v)
                    else acc
                  connectProps fuel (r4.drop vlen) acc'
            else if vt = 0 then connectProps fuel (r3.drop 8) acc
            else if vt = 1 then connectProps fuel (r3.drop 1) acc
            else acc
    else acc

/-- `parse_rtmp_connect` (lines 145-259).  Returns `(app, flashVer, tcUrl)`. -/
def parse_rtmp_connect (payload : List Nat) : Option (List Nat × List Nat × List Nat) :=
  if payload.length < 10 then none
  else if payload.getD 0 0 ≠ 2 then none
  else
    let strLen := payload.getD 1 0 * 256 + payload.getD 2 0
    let r := payload.drop 3
    if strLen > r.length then none
    else if r.take strLen ≠ asciiBytes "connect" then none
    else
      let r1 := r.drop strLen
      if r1.length < 9 then none
      else
        let r2 := r1.drop 9
        if r2.length < 1 ∨ r2.getD 0 0 ≠ 3 then none
        else some (connectProps payload.length (r2.drop 1) ([], [], []))

/-- `parse_rtmp_publish` (lines 261-330).  Returns `(stream_key, publish_type)`. -/
def parse_rtmp_publish (payload : List Nat) : Option (List Nat × List Nat) :=
  if payload.length < 10 then none
  else if payload.getD 0 0 ≠ 2 then none
  else
    let strLen := payload.getD 1 0 * 256 + payload.getD 2 0
    let r := payload.drop 3
    if strLen > r.length then none
    else if r.take strLen ≠ asciiBytes "publish" then none
    else
      let r1 := r.drop strLen
      if r1.length < 9 then none
      else
        let r2 := r1.drop 9
        if r2.length < 1 ∨ r2.getD 0 0 ≠ 5 then none
        else
          let r3 := r2.drop 1
          if r3.length < 3 ∨ r3.getD 0 0 ≠ 2 then none
          else
            let keyLen := r3.getD 1 0 * 256 + r3.getD 2 0
            let r4 := r3.drop 3
            if keyLen > r4.length then none
            else
              let streamKey := r4.take keyLen
              let r5 := r4.drop keyLen
              let publishType :=
                if 3 ≤ r5.length ∧ r5.getD 0 0 = 2 then
                  let typeLen := r5.getD 1 0 * 256 + r5.getD 2 0
                  let r6 := r5.drop 3
                  if typeLen ≤ r6.length then r6.take typeLen else asciiBytes "live"
                else asciiBytes "live"
              some (streamKey, publishType)

/-- `parse_rtmp_createstream` (lines 332-376).  The transaction id is kept as
its 8 raw big-endian bytes. -/
def parse_rtmp_createstream (payload : List Nat) : Option (List Nat) :=
  if payload.length < 10 then none
  else if payload.getD 0 0 ≠ 2 then none
  else
    let strLen := payload.getD 1 0 * 256 + payload.getD 2 0
    let r := payload.drop 3
    if strLen > r.length then none
    else if r.take strLen ≠ asciiBytes "createStream" then none
    else
      let r1 := r.drop strLen
      if r1.length < 9 then none
      else if r1.getD 0 0 ≠ 0 then none
      else some ((r1.drop 1).take 8)

/-- `parse_command_name` (lines 507-526). -/
def parse_command_name (payload : List Nat) : Option (List Nat) :=
  if payload.length < 5 then none
  else if payload.getD 0 0 ≠ 2 then none
  else
    let strLen := payload.getD 1 0 * 256 + payload.getD 2 0
    if payload.length < 3 + strLen then none
    else some ((payload.drop 3).take strLen)

/-- `parse_checkbw_command` (lines 528-565); transaction id as 8 raw bytes. -/
def parse_checkbw_command (payload : List Nat) : Option (List Nat) :=
  if payload.length < 20 then none
  else if payload.getD 0 0 ≠ 2 then none
  else
    let strLen := payload.getD 1 0 * 256 + payload.getD 2 0
    let r := payload.drop 3
    if strLen > r.length ∨ strLen ≠ 8 then none
    else if r.take 8 ≠ asciiBytes "_checkbw" then none
    else
      let r1 := r.drop 8
      if r1.length < 9 ∨ r1.getD 0 0 ≠ 0 then none
      else some ((r1.drop 1).take 8)

/-- Big-endian IEEE-754 bytes of the `f64` literal `0.0`. -/
def f64be_0 : List Nat := [0, 0, 0, 0, 0, 0, 0, 0]

/-- Big-endian IEEE-754 bytes of the `f64` literal `1.0`. -/
def f64be_1 : List Nat := [63, 240, 0, 0, 0, 0, 0, 0]

/-- Big-endian IEEE-754 bytes of the `f64` literal `2.0`. -/
def f64be_2 : List Nat := [64, 0, 0, 0, 0, 0, 0, 0]

/-- Big-endian IEEE-754 bytes of the `f64` literal `4.0`. -/
def f64be_4 : List Nat := [64, 16, 0, 0, 0, 0, 0, 0]

/-- Big-endian IEEE-754 bytes of the `f64` literal `31.0`. -/
def f64be_31 : List Nat := [64, 63, 0, 0, 0, 0, 0, 0]

/-- Big-endian IEEE-754 bytes of the `f64` literal `1000000.0`. -/
def f64be_1000000 : List Nat := [65, 46, 132, 128, 0, 0, 0, 0]

/-- `create_connect_response` (lines 378-437), as the byte sequence the
source's push/extend calls produce, literal length prefixes included. -/
def create_connect_response : List Nat :=
  [2] ++ be16 7 ++ asciiBytes "_result"
  ++ [0] ++ f64be_1
  ++ [3]
  ++ be16 6 ++ asciiBytes "fmsVer" ++ [2] ++ be16 9 ++ asciiBytes "FMS/3,0,1"
  ++ be16 12 ++ asciiBytes "capabilities" ++ [0] ++ f64be_31
  ++ [0, 0, 9]
  ++ [3]
  ++ be16 5 ++ asciiBytes "level" ++ [2] ++ be16 6 ++ asciiBytes "status"
  ++ be16 4 ++ asciiBytes "code" ++ [2] ++ be16 29 ++ asciiBytes "NetConnection.Connect.Success"
  ++ be16 11 ++ asciiBytes "description" ++ [2] ++ be16 15 ++ asciiBytes "Connection succeeded"
  ++ [0, 0, 9]

/-- `create_publish_response` (lines 439-483). -/
def create_publish_response (streamKey : List Nat) : List Nat :=
  [2] ++ be16 8 ++ asciiBytes "onStatus"
  ++ [0] ++ f64be_0
  ++ [5]
  ++ [3]
  ++ be16 5 ++ asciiBytes "level" ++ [2] ++ be16 6 ++ asciiBytes "status"
  ++ be16 4 ++ asciiBytes "code" ++ [2] ++ be16 26 ++ asciiBytes "NetStream.Publish.Start"
  ++ be16 11 ++ asciiBytes "description" ++ [2]
  ++ be16 (asciiBytes "Started publishing stream " ++ streamKey).length
  ++ (asciiBytes "Started publishing stream " ++ streamKey)
  ++ [0, 0, 9]

/-- `create_createstream_response` (lines 485-505); `txn` is the 8-byte
big-endian transaction id (`f64::to_be_bytes` of the parsed value). -/
def create_createstream_response (txn : List Nat) : List Nat :=
  [2] ++ be16 7 ++ asciiBytes "_result" ++ [0] ++ txn ++ [5] ++ [0] ++ f64be_1

/-- `create_generic_response` (lines 567-586).  The `command` argument is
unused by the source as well; the transaction id is the literal `2.0`. -/
def create_generic_response (_command : List Nat) : List Nat :=
  [2] ++ be16 7 ++ asciiBytes "_result" ++ [0] ++ f64be_2 ++ [5] ++ [5]

/-- `create_onbwdone_message` (lines 588-604). -/
def create_onbwdone_message : List Nat :=
  [2] ++ be16 8 ++ asciiBytes "onBWDone" ++ [0] ++ f64be_0 ++ [5]

/-- `create_checkbw_response` (lines 606-626). -/
def create_checkbw_response (txn : List Nat) : List Nat :=
  [2] ++ be16 7 ++ asciiBytes "_result" ++ [0] ++ txn ++ [5] ++ [0] ++ f64be_1000000

/-- `create_onbwcheck_message` (lines 628-648). -/
def create_onbwcheck_message : List Nat :=
  [2] ++ be16 9 ++ asciiBytes "onBWCheck" ++ [0] ++ f64be_0 ++ [5] ++ [0] ++ f64be_1000000

/-- `create_control_message` (`src/rtmp/mod.rs` lines 306-322): one chunk,
basic header byte `0x02` (format 0, chunk stream 2), 11-byte type-0 message
header, then the whole payload. -/
def create_control_message (messageType : Nat) (payload : List Nat) : List Nat :=
  [2] ++ [0, 0, 0] ++ be3enc payload.length ++ [messageType] ++ [0, 0, 0, 0] ++ payload

/-- `create_command_chunk` (`src/rtmp/mod.rs` lines 324-340): one chunk,
basic header byte `0x03` (format 0, chunk stream 3), 11-byte type-0 message
header with type id 20, then the whole payload. -/
def create_command_chunk (payload : List Nat) : List Nat :=
  [3] ++ [0, 0, 0] ++ be3enc payload.length ++ [20] ++ [0, 0, 0, 0] ++ payload

/-- `send_stream_begin` payload + chunk (`src/rtmp/mod.rs` lines 294-304). -/
def stream_begin_chunk (streamId : Nat) : List Nat :=
  create_control_message 4 (be16 0 ++ be4enc streamId)

/-- `send_initial_control_messages` (`src/rtmp/mod.rs` lines 272-292): the
three chunks written after the handshake. -/
def send_initial_control_messages : List (List Nat) :=
  [create_control_message 5 (be4enc 5000000),
   create_control_message 6 (be4enc 5000000 ++ [0]),
   create_control_message 1 (be4enc 4096)]

/-- The command-message dispatch of `handle_rtmp_connection`
(`src/rtmp/mod.rs` lines 96-207): the list of chunk byte sequences written
to the socket for one command payload. -/
def handleCommandPayload (payload : List Nat) : List (List Nat) :=
  match parse_rtmp_connect payload with
  | some _ =>
      [create_command_chunk create_connect_response,
       stream_begin_chunk 0,
       create_command_chunk create_onbwdone_message]
  | none =>
    match parse_rtmp_createstream payload with
    | some txn => [create_command_chunk (create_createstream_response txn)]
    | none =>
      match parse_rtmp_publish payload with
      | some pc => [create_command_chunk (create_publish_response pc.1)]
      | none =>
        match parse_command_name payload with
        | some name =>
          if name = asciiBytes "_checkbw" then
            match parse_checkbw_command payload with
            | some txn =>
                [create_command_chunk (create_checkbw_response txn),
                 create_command_chunk create_onbwcheck_message]
            | none => [create_command_chunk (create_generic_response name)]
          else [create_command_chunk (create_generic_response name)]
        | none => []

/-- The per-message arm of the read loop (`src/rtmp/mod.rs` lines 95-241):
chunks written in reaction to one demultiplexed message. -/
def handleMessage (header : RtmpHeader) (payload : List Nat) : List (List Nat) :=
  match MessageType.fromByte header.message_type_id with
  | .command => handleCommandPayload payload
  | .windowAcknowledgementSize =>
      if 4 ≤ header.message_length then [create_control_message 3 (be4enc 0)] else []
  | _ => []

/-- One iteration of the message-extraction loop (`src/rtmp/mod.rs` lines
86-93, 99, 243): parse a header at the front of the buffer and, if
`header_size + message_length` bytes are available, cut that message out. -/
def demuxStep (buf : List Nat) : Option ((RtmpHeader × List Nat) × Nat) :=
  match RtmpHeader.parse buf with
  | none => none
  | some (header, headerSize) =>
    let total := headerSize + header.message_length
    if buf.length < total then none
    else some ((header, (buf.drop headerSize).take header.message_length), total)

/-- The message-extraction loop (`src/rtmp/mod.rs` lines 81-250); `fuel`
is `MAX_MESSAGES_PER_READ = 10` at the call site. -/
def demuxMessages : Nat → List Nat → List (RtmpHeader × List Nat)
  | 0, _ => []
  | fuel + 1, buf =>
    match demuxStep buf with
    | none => []
    | some (m, consumed) => m :: demuxMessages fuel (buf.drop consumed)

/-- Chunks written while reacting to a sequence of demultiplexed messages. -/
def runMessages (msgs : List (RtmpHeader × List Nat)) : List (List Nat) :=
  (msgs.map fun m => handleMessage m.1 m.2).flatten

/-- Full read-loop body on one buffer: demultiplex (cap 10, as in the
source), then handle each message. -/
def processBuffer (buf : List Nat) : List (List Nat) :=
  runMessages (demuxMessages 10 buf)

/-- Number of Acknowledgement (type id 3) control chunks among written
chunks: byte 7 of a format-0 chunk-stream-2 chunk is the message type id. -/
def countAcks (outs : List (List Nat)) : Nat :=
  (outs.filter fun c => c.getD 0 0 = 2 ∧ c.getD 7 0 = 3).length

/-- Outcome of `perform_handshake` (`src/rtmp/handshake.rs`). -/
inductive HandshakeOutcome where
  | ok
  | versionMismatch
  | truncated
deriving DecidableEq, Repr

/-- The deterministic S1 block built at lines 30-44 of
`src/rtmp/handshake.rs`: 8 zero bytes then `s1[i] = i % 256`. -/
def s1Block : List Nat := (List.range 1536).map fun i => if i < 8 then 0 else i % 256

/-- `perform_handshake` (`src/rtmp/handshake.rs` lines 10-60) over the
client's byte stream `input`: returns the bytes written to the socket and
the outcome (`read_exact` hitting end of input is `truncated`). -/
def perform_handshake (input : List Nat) : List Nat × HandshakeOutcome :=
  match input with
  | [] => ([], .truncated)
  | c0 :: rest =>
    if c0 ≠ 3 then ([], .versionMismatch)
    else if rest.length < 1536 then ([], .truncated)
    else
      let c1 := rest.take 1536
      let written := [3] ++ s1Block ++ c1
      if (rest.drop 1536).length < 1536 then (written, .truncated)
      else (written, .ok)

/-- `true` iff `pat` occurs as a contiguous byte run inside the list. -/
def containsSeq (pat : List Nat) : List Nat → Bool
  | [] => decide (pat = [])
  | b :: rest => decide ((b :: rest).take pat.length = pat) || containsSeq pat rest

/-- Modelled from the spec (§4.3 response table, claim C2): the connect
`_result` shape the spec describes, parameterized by the fmsVer string and
by the declared length prefix of the description string (the two places
where source and spec can disagree); transaction id fixed at the client's
usual `1.0`. -/
def specConnectTemplate (fms : List Nat) (descLenPrefix : Nat) : List Nat :=
  [2] ++ be16 7 ++ asciiBytes "_result"
  ++ [0] ++ f64be_1
  ++ [3]
  ++ be16 6 ++ asciiBytes "fmsVer" ++ [2] ++ be16 fms.length ++ fms
  ++ be16 12 ++ asciiBytes "capabilities" ++ [0] ++ f64be_31
  ++ [0, 0, 9]
  ++ [3]
  ++ be16 5 ++ asciiBytes "level" ++ [2] ++ be16 6 ++ asciiBytes "status"
  ++ be16 4 ++ asciiBytes "code" ++ [2]
      ++ be16 (asciiBytes "NetConnection.Connect.Success").length
      ++ asciiBytes "NetConnection.Connect.Success"
  ++ be16 11 ++ asciiBytes "description" ++ [2]
      ++ be16 descLenPrefix ++ asciiBytes "Connection succeeded"
  ++ [0, 0, 9]

/-- Modelled from the spec (claim C5): the minimal `_result` reply with the
given transaction-id bytes and two nulls. -/
def specGenericReply (txn : List Nat) : List Nat :=
  [2] ++ be16 7 ++ asciiBytes "_result" ++ [0] ++ txn ++ [5] ++ [5]

/-- Modelled from the spec (§4.2 step 2-3, §8 property 2, claim C1): the
continuation chunks of a split message — each carries a format-3 basic
header `0xC3` (chunk stream 3) and at most `csize` payload bytes.  `fuel`
bounds the recursion; the callers pass at least the payload length. -/
def contChunks : Nat → Nat → List Nat → List Nat
  | 0, _, _ => []
  | _ + 1, _, [] => []
  | fuel + 1, csize, rest => [195] ++ rest.take csize ++ contChunks fuel csize (rest.drop csize)

/-- Modelled from the spec (§8 property 2, claim C1): split a message with
type id `typeId` into chunks on chunk stream 3 whose payload fragments each
do not exceed `csize`: a format-0 chunk (timestamp 0, declared length
`payload.length`, message stream 0) then format-3 continuation chunks. -/
def chunkifyMessage (typeId : Nat) (csize : Nat) (payload : List Nat) : List Nat :=
  [3, 0, 0, 0] ++ be3enc payload.length ++ [typeId, 0, 0, 0, 0]
  ++ payload.take csize ++ contChunks payload.length csize (payload.drop csize)

/-- Modelled from the spec (§3 AMF0 value kinds, claim C8): a connect-object
property value of the kinds the claim feeds to the decoder.  A number is
kept as its 8 encoded bytes. -/
inductive AmfVal where
  | str (s : List Nat)
  | num (b : List Nat)
  | boolv (b : Nat)
  | nullv
deriving DecidableEq, Repr

/-- AMF0 encoding of one property value. -/
def encodeVal : AmfVal → List Nat
  | .str s => [2] ++ be16 s.length ++ s
  | .num b => [0] ++ b
  | .boolv b => [1, b]
  | .nullv => [5]

/-- AMF0 encoding of an object property list, closed by the `00 00 09`
object-end marker. -/
def encodeProps : List (List Nat × AmfVal) → List Nat
  | [] => [0, 0, 9]
  | (n, v) :: rest => be16 n.length ++ n ++ encodeVal v ++ encodeProps rest

/-- A well-formed connect command payload: name `connect`, transaction id
`1.0`, then the command object with the given properties. -/
def connectPayloadOfProps (props : List (List Nat × AmfVal)) : List Nat :=
  [2] ++ be16 7 ++ asciiBytes "connect" ++ [0] ++ f64be_1 ++ [3] ++ encodeProps props

/-- Well-formedness of a property for the skipping theorem: encodable name
and value lengths, and a value kind the source's loop can skip or read
(string, number, boolean — not null/object/array/date, which it cannot). -/
def wfProp : List Nat × AmfVal → Bool
  | (n, AmfVal.str s) => decide (n.length < 65536) && decide (s.length < 65536)
  | (n, AmfVal.num b) => decide (n.length < 65536) && decide (b.length = 8)
  | (n, AmfVal.boolv _) => decide (n.length < 65536)
  | (_, AmfVal.nullv) => false

/-- All properties of a connect object well-formed in the sense of `wfProp`. -/
def wfProps (props : List (List Nat × AmfVal)) : Bool := props.all wfProp

/-- Reference extraction over a property list: string-valued `app`,
`flashVer`, `tcUrl` properties update the accumulator, later occurrences
overwriting earlier ones; every other property is ignored. -/
def foldProps : List (List Nat × AmfVal) → List Nat × List Nat × List Nat → List Nat × List Nat × List Nat
  | [], acc => acc
  | (n, AmfVal.str s) :: rest, acc =>
      foldProps rest
        (if n = asciiBytes "app" then (s, acc.2.1, acc.2.2)
         else if n = asciiBytes "flashVer" then (acc.1, s, acc.2.2)
         else if n = asciiBytes "tcUrl" then (acc.1, acc.2.1, s)
         else acc)
  | (_, _) :: rest, acc => foldProps rest acc

/-- A format-0 chunk on chunk stream 3 whose message header declares a
timestamp of `0xFFFFFF` (the extended-timestamp escape), message length 5,
type id 20, stream id 0, followed by the four bytes `AA BB CC DD`. -/
def extTsInput : List Nat :=
  [3, 255, 255, 255, 0, 0, 5, 20, 0, 0, 0, 0, 170, 187, 204, 221]

/-- A well-formed `publish` command payload whose stream key is empty. -/
def pubEmptyKeyPayload : List Nat :=
  [2] ++ be16 7 ++ asciiBytes "publish" ++ [0] ++ f64be_0 ++ [5] ++ [2] ++ be16 0

/-- The spec's end-to-end scenario 6 input: `FCPublish, 4.0, null, "key"`. -/
def fcPublish4Payload : List Nat :=
  [2] ++ be16 9 ++ asciiBytes "FCPublish" ++ [0] ++ f64be_4 ++ [5]
  ++ [2] ++ be16 3 ++ asciiBytes "key"

/-- A connect payload whose command object holds a null-valued property
`test` before the string property `app = "live"`. -/
def connectNullPropPayload : List Nat :=
  connectPayloadOfProps
    [(asciiBytes "test", AmfVal.nullv), (asciiBytes "app", AmfVal.str (asciiBytes "live"))]

example : parse_rtmp_publish pubEmptyKeyPayload = some ([], asciiBytes "live") := by decide
example : parse_rtmp_connect pubEmptyKeyPayload = none := by decide
example : parse_command_name fcPublish4Payload = some (asciiBytes "FCPublish") := by decide
example : parse_rtmp_connect connectNullPropPayload = some ([], [], []) := by decide
example :
    parse_rtmp_connect (connectPayloadOfProps [(asciiBytes "app", AmfVal.str (asciiBytes "live"))]) =
      some (asciiBytes "live", [], []) := by decide
example :
    chunkifyMessage 8 1 [170, 187] =
      [3, 0, 0, 0, 0, 0, 2, 8, 0, 0, 0, 0, 170, 195, 187] := by decide
example :
    demuxMessages 10 (chunkifyMessage 8 1 [170, 187]) = [(⟨0, 3, 0, 2, 8, 0⟩, [170, 195])] := by
  decide

/-! ## Helper lemmas -/

lemma be3_be3enc (n : Nat) (h : n < 16777216) :
    be3 (n / 65536 % 256) (n / 256 % 256) (n % 256) = n := by
  unfold be3; omega

lemma contChunks_nil (fuel csize : Nat) : contChunks fuel csize [] = [] := by
  cases fuel <;> rfl

lemma parse_fmt0_cs3 (a b c t : Nat) (rest : List Nat) :
    RtmpHeader.parse (3 :: 0 :: 0 :: 0 :: a :: b :: c :: t :: 0 :: 0 :: 0 :: 0 :: rest) =
      some (⟨0, 3, 0, be3 a b c, t, 0⟩, 12) := by
  simp [RtmpHeader.parse, readMessageHeader, be3, le4]

lemma demuxMessages_nil (fuel : Nat) : demuxMessages fuel [] = [] := by
  cases fuel with
  | zero => rfl
  | succ f => simp [demuxMessages, demuxStep, RtmpHeader.parse]

lemma demuxStep_fmt0_exact (a b c t : Nat) (payload : List Nat)
    (h : be3 a b c = payload.length) :
    demuxStep (3 :: 0 :: 0 :: 0 :: a :: b :: c :: t :: 0 :: 0 :: 0 :: 0 :: payload) =
      some ((⟨0, 3, 0, payload.length, t, 0⟩, payload), 12 + payload.length) := by
  have hlen :
      (3 :: 0 :: 0 :: 0 :: a :: b :: c :: t :: 0 :: 0 :: 0 :: 0 :: payload).length =
        12 + payload.length := by
    simp only [List.length_cons]; omega
  unfold demuxStep
  rw [parse_fmt0_cs3, h]
  simp [hlen, List.take_length]

/-! ## C1 — chunked message reassembly -/

/-- C1 counterexample: the 2-byte message `AA BB` split at chunk size 1
(format-0 chunk with payload `AA`, then a format-3 chunk with payload `BB`)
is NOT reassembled: the demuxer hands the session `AA C3` — it swallows the
continuation chunk's basic header byte as payload — so the delivered
payload differs from the original message. -/
theorem chunk_reassembly_counterexample :
    demuxMessages 10 (chunkifyMessage 8 1 [170, 187]) = [(⟨0, 3, 0, 2, 8, 0⟩, [170, 195])] ∧
    (demuxMessages 10 (chunkifyMessage 8 1 [170, 187])).map Prod.snd ≠ [[170, 187]] := by
  decide

/-- C1 amended: the demuxer performs no per-chunk-stream reassembly — it
reads `message_length` bytes immediately after the chunk header — so the
round trip holds exactly when the message fits in a single chunk (payload
length at most the chunk size): then the one format-0 chunk is delivered
with precisely the original payload. -/
theorem single_chunk_roundtrip (typeId csize : Nat) (payload : List Nat)
    (hlen : payload.length < 16777216) (hfit : payload.length ≤ csize) :
    demuxMessages 10 (chunkifyMessage typeId csize payload) =
      [(⟨0, 3, 0, payload.length, typeId, 0⟩, payload)] := by
  have htake : payload.take csize = payload := List.take_of_length_le hfit
  have hdropc : payload.drop csize = [] := List.drop_eq_nil_of_le hfit
  have hchunk : chunkifyMessage typeId csize payload =
      3 :: 0 :: 0 :: 0 :: (payload.length / 65536 % 256) :: (payload.length / 256 % 256) ::
        (payload.length % 256) :: typeId :: 0 :: 0 :: 0 :: 0 :: payload := by
    simp [chunkifyMessage, be3enc, htake, hdropc, contChunks_nil]
  rw [hchunk]
  show demuxMessages (9 + 1) _ = _
  rw [demuxMessages, demuxStep_fmt0_exact _ _ _ typeId _ (be3_be3enc payload.length hlen)]
  have hdropall :
      (3 :: 0 :: 0 :: 0 :: (payload.length / 65536 % 256) :: (payload.length / 256 % 256) ::
        (payload.length % 256) :: typeId :: 0 :: 0 :: 0 :: 0 :: payload).drop
        (12 + payload.length) = [] :=
    List.drop_eq_nil_of_le (by simp only [List.length_cons]; omega)
  simp only [hdropall, demuxMessages_nil]

/-- C1 witness: a 3-byte payload within a 128-byte chunk size round-trips. -/
theorem single_chunk_roundtrip_witness :
    demuxMessages 10 (chunkifyMessage 8 128 [1, 2, 3]) = [(⟨0, 3, 0, 3, 8, 0⟩, [1, 2, 3])] :=
  single_chunk_roundtrip 8 128 [1, 2, 3] (by decide) (by decide)

/-! ## C2 — connect success response bytes -/

/-- C2 counterexample: the response the server actually builds is not the
byte sequence the claim describes (fmsVer `FMS/3,0,1,123` with a length
prefix equal to each string's byte length): the source writes `FMS/3,0,1`
and declares length 15 for the 20-byte description string. -/
theorem connect_response_counterexample :
    create_connect_response ≠ specConnectTemplate (asciiBytes "FMS/3,0,1,123") 20 := by
  decide

/-- C2 amended: the connect response is a `_result` with hardcoded
transaction id 1.0, properties object `{fmsVer: "FMS/3,0,1", capabilities:
31}`, and information object `{level: "status", code:
"NetConnection.Connect.Success", description: "Connection succeeded"}`,
each object closed by `00 00 09` — but the fmsVer string is `FMS/3,0,1`
(not `FMS/3,0,1,123`), and the description's declared length is 15 while
the string itself is 20 bytes long. -/
theorem connect_response_bytes :
    create_connect_response = specConnectTemplate (asciiBytes "FMS/3,0,1") 15 ∧
    (asciiBytes "Connection succeeded").length = 20 := by
  decide

/-! ## C5 — unknown command reply -/

/-- C5 counterexample: to the spec's scenario-6 input `FCPublish, 4.0,
null, "key"` the server replies `_result` with transaction id 2.0, not the
client's 4.0. -/
theorem unknown_command_counterexample :
    handleCommandPayload fcPublish4Payload =
      [create_command_chunk (specGenericReply f64be_2)] ∧
    handleCommandPayload fcPublish4Payload ≠
      [create_command_chunk (specGenericReply f64be_4)] := by
  decide

/-- C5 amended: for every well-formed command the server does not
recognize, the reply is `_result` with the hardcoded transaction id 2.0
and two nulls, whatever transaction id the client sent. -/
theorem unknown_command_fixed_txn (payload name : List Nat)
    (h1 : parse_rtmp_connect payload = none)
    (h2 : parse_rtmp_createstream payload = none)
    (h3 : parse_rtmp_publish payload = none)
    (h4 : parse_command_name payload = some name)
    (h5 : name ≠ asciiBytes "_checkbw") :
    handleCommandPayload payload = [create_command_chunk (specGenericReply f64be_2)] := by
  simp only [handleCommandPayload, h1, h2, h3, h4, if_neg h5]
  rfl

/-- C5 witness: the fixed-transaction-id reply at the scenario-6 input. -/
theorem unknown_command_fixed_txn_witness :
    handleCommandPayload fcPublish4Payload =
      [create_command_chunk (specGenericReply f64be_2)] :=
  unknown_command_fixed_txn fcPublish4Payload (asciiBytes "FCPublish")
    (by decide) (by decide) (by decide) (by decide) (by decide)

/-! ## C6 — outbound muxer does not split -/

lemma command_chunk_drop (payload : List Nat) :
    (create_command_chunk payload).drop 12 = payload := by
  simp [create_command_chunk, be3enc]

lemma control_message_drop (t : Nat) (payload : List Nat) :
    (create_control_message t payload).drop 12 = payload := by
  simp [create_control_message, be3enc]

lemma parse_fmt0_small (k : Nat) (h2 : 2 ≤ k) (h63 : k ≤ 63) (a b c t : Nat) (rest : List Nat) :
    RtmpHeader.parse (k :: 0 :: 0 :: 0 :: a :: b :: c :: t :: 0 :: 0 :: 0 :: 0 :: rest) =
      some (⟨0, k, 0, be3 a b c, t, 0⟩, 12) := by
  have hk4 : k / 64 % 4 = 0 := by omega
  have hk64 : k % 64 = k := Nat.mod_eq_of_lt (by omega)
  have h0 : ¬ (k = 0) := by omega
  have h1 : ¬ (k = 1) := by omega
  simp [RtmpHeader.parse, readMessageHeader, be3, le4, hk4, hk64, h0, h1]

/-- C6 counterexample: a 4097-byte message payload handed to the muxer
comes out as a single chunk whose payload part is all 4097 bytes — more
than the outbound chunk size of 4096 that
`send_initial_control_messages` announces — with no format-3 continuation
chunk. -/
theorem mux_no_split_counterexample :
    ((create_command_chunk (List.replicate 4097 7)).drop 12).length = 4097 ∧
    ¬ ((create_command_chunk (List.replicate 4097 7)).drop 12).length ≤ 4096 := by
  rw [command_chunk_drop, List.length_replicate]
  exact ⟨rfl, by omega⟩

/-- C6 amended: the muxer emits every outbound message as exactly one
chunk — a format-0 header (chunk stream 3 for commands, 2 for control)
whose declared length is the whole payload length, followed by the entire
payload — regardless of the outbound chunk size; it never emits format-3
continuation chunks, so a chunk's payload exceeds the outbound chunk size
whenever the message payload does. -/
theorem mux_single_whole_chunk (t : Nat) (payload : List Nat)
    (hlen : payload.length < 16777216) :
    RtmpHeader.parse (create_command_chunk payload) =
      some (⟨0, 3, 0, payload.length, 20, 0⟩, 12) ∧
    (create_command_chunk payload).drop 12 = payload ∧
    RtmpHeader.parse (create_control_message t payload) =
      some (⟨0, 2, 0, payload.length, t, 0⟩, 12) ∧
    (create_control_message t payload).drop 12 = payload := by
  have hcmd : create_command_chunk payload =
      3 :: 0 :: 0 :: 0 :: (payload.length / 65536 % 256) :: (payload.length / 256 % 256) ::
        (payload.length % 256) :: 20 :: 0 :: 0 :: 0 :: 0 :: payload := by
    simp [create_command_chunk, be3enc]
  have hctl : create_control_message t payload =
      2 :: 0 :: 0 :: 0 :: (payload.length / 65536 % 256) :: (payload.length / 256 % 256) ::
        (payload.length % 256) :: t :: 0 :: 0 :: 0 :: 0 :: payload := by
    simp [create_control_message, be3enc]
  refine ⟨?_, command_chunk_drop payload, ?_, control_message_drop t payload⟩
  · rw [hcmd, parse_fmt0_small 3 (by omega) (by omega), be3_be3enc payload.length hlen]
  · rw [hctl, parse_fmt0_small 2 (by omega) (by omega), be3_be3enc payload.length hlen]

/-- C6 witness: the single-whole-chunk shape at a concrete 3-byte payload. -/
theorem mux_single_whole_chunk_witness :
    RtmpHeader.parse (create_command_chunk [7, 8, 9]) =
      some (⟨0, 3, 0, 3, 20, 0⟩, 12) ∧
    (create_command_chunk [7, 8, 9]).drop 12 = [7, 8, 9] ∧
    RtmpHeader.parse (create_control_message 1 [7, 8, 9]) =
      some (⟨0, 2, 0, 3, 1, 0⟩, 12) ∧
    (create_control_message 1 [7, 8, 9]).drop 12 = [7, 8, 9] :=
  mux_single_whole_chunk 1 [7, 8, 9] (by decide)

/-! ## C7 — handshake version gate -/

/-- C7: if the first client byte C0 is not 3, the handshake fails with a
version mismatch having written nothing (no S0/S1/S2); if C0 is 3 and
enough client bytes follow, it proceeds, writing S0 = 3, the deterministic
S1 block, and S2 = the echo of C1. -/
theorem handshake_version_gate :
    (∀ (c0 : Nat) (rest : List Nat), c0 ≠ 3 →
      perform_handshake (c0 :: rest) = ([], HandshakeOutcome.versionMismatch)) ∧
    (∀ rest : List Nat, 3072 ≤ rest.length →
      perform_handshake (3 :: rest) = ([3] ++ s1Block ++ rest.take 1536, HandshakeOutcome.ok)) := by
  constructor
  · intro c0 rest h
    simp [perform_handshake, h]
  · intro rest h
    have h1 : ¬ rest.length < 1536 := by omega
    simp [perform_handshake, h1]
    omega

/-- C7 witness: C0 = 2 is rejected with nothing written; C0 = 3 with a
full C1 and C2 completes. -/
theorem handshake_version_gate_witness :
    perform_handshake [2] = ([], HandshakeOutcome.versionMismatch) ∧
    perform_handshake (3 :: List.replicate 3072 0) =
      ([3] ++ s1Block ++ (List.replicate 3072 0).take 1536, HandshakeOutcome.ok) :=
  ⟨handshake_version_gate.1 2 [] (by decide),
   handshake_version_gate.2 (List.replicate 3072 0) (by rw [List.length_replicate])⟩

/-! ## C9 — acknowledgement cadence -/

/-- C9 counterexample: after a 5,000,000-byte audio payload has arrived —
N = W for the announced window size W = 5,000,000, so the claim demands at
least ⌊N/W⌋ = 1 Acknowledgement — the server has emitted none: media
messages produce no output at all. -/
theorem ack_cadence_counterexample :
    countAcks (runMessages [(⟨0, 6, 0, 5000000, 8, 1⟩, List.replicate 5000000 0)]) = 0 ∧
    (1 : Nat) ≤ 5000000 / 5000000 := by
  refine ⟨?_, by norm_num⟩
  rw [runMessages, List.map_cons, List.map_nil,
    show handleMessage ⟨0, 6, 0, 5000000, 8, 1⟩ (List.replicate 5000000 0) = [] from rfl]
  rfl

/-- C9 amended: the server keeps no inbound byte counter; it emits exactly
one Acknowledgement — whose 4-byte value is the constant 0, not the total
bytes received — in reaction to each received Window Acknowledgement Size
message, and none for media traffic, so no ⌊N/W⌋ cadence holds. -/
theorem ack_only_reactive :
    (∀ (hdr : RtmpHeader) (payload : List Nat),
      hdr.message_type_id = 5 → 4 ≤ hdr.message_length →
      handleMessage hdr payload = [create_control_message 3 (be4enc 0)]) ∧
    (∀ (hdr : RtmpHeader) (payload : List Nat),
      hdr.message_type_id = 8 ∨ hdr.message_type_id = 9 →
      handleMessage hdr payload = []) ∧
    create_control_message 3 (be4enc 0) =
      [2, 0, 0, 0, 0, 0, 4, 3, 0, 0, 0, 0, 0, 0, 0, 0] := by
  refine ⟨?_, ?_, by decide⟩
  · intro hdr payload h5 hlen
    simp [handleMessage, MessageType.fromByte, h5, hlen]
  · intro hdr payload h89
    rcases h89 with h | h <;> simp [handleMessage, MessageType.fromByte, h]

/-- C9 witness: the reactive Acknowledgement at a concrete Window
Acknowledgement Size message, and silence at a concrete audio message. -/
theorem ack_only_reactive_witness :
    handleMessage ⟨0, 2, 0, 4, 5, 0⟩ [0, 76, 75, 64] = [create_control_message 3 (be4enc 0)] ∧
    handleMessage ⟨0, 6, 0, 4, 8, 1⟩ [1, 2, 3, 4] = [] :=
  ⟨ack_only_reactive.1 ⟨0, 2, 0, 4, 5, 0⟩ [0, 76, 75, 64] rfl (by decide),
   ack_only_reactive.2.1 ⟨0, 6, 0, 4, 8, 1⟩ [1, 2, 3, 4] (Or.inl rfl)⟩

/-! ## C3 / C10 — header parser properties -/

lemma readMessageHeader_spec (format csid offset : Nat) (rest : List Nat)
    (hdr : RtmpHeader) (consumed : Nat)
    (hb : ∀ b ∈ rest, b < 256)
    (h : readMessageHeader format csid offset rest = some (hdr, consumed)) :
    hdr.format = format ∧ hdr.chunk_stream_id = csid ∧
    consumed ≤ offset + 11 ∧ consumed ≤ offset + rest.length ∧
    hdr.timestamp ≤ 16777215 := by
  by_cases hf0 : format = 0
  · subst hf0
    norm_num [readMessageHeader] at h
    split at h
    next t0 t1 t2 l0 l1 l2 ty s0 s1 s2 s3 tail =>
      rw [Option.some.injEq, Prod.mk.injEq] at h
      obtain ⟨hh, hc⟩ := h
      subst hh; subst hc
      have ht0 : t0 < 256 := hb t0 (by simp)
      have ht1 : t1 < 256 := hb t1 (by simp)
      have ht2 : t2 < 256 := hb t2 (by simp)
      exact ⟨rfl, rfl, by omega, by simp only [List.length_cons]; omega,
        by simp only [be3]; omega⟩
    next => simp at h
  · by_cases hf1 : format = 1
    · subst hf1
      norm_num [readMessageHeader] at h
      split at h
      next t0 t1 t2 l0 l1 l2 ty tail =>
        rw [Option.some.injEq, Prod.mk.injEq] at h
        obtain ⟨hh, hc⟩ := h
        subst hh; subst hc
        have ht0 : t0 < 256 := hb t0 (by simp)
        have ht1 : t1 < 256 := hb t1 (by simp)
        have ht2 : t2 < 256 := hb t2 (by simp)
        exact ⟨rfl, rfl, by omega, by simp only [List.length_cons]; omega,
          by simp only [be3]; omega⟩
      next => simp at h
    · by_cases hf2 : format = 2
      · subst hf2
        norm_num [readMessageHeader] at h
        split at h
        next t0 t1 t2 tail =>
          rw [Option.some.injEq, Prod.mk.injEq] at h
          obtain ⟨hh, hc⟩ := h
          subst hh; subst hc
          have ht0 : t0 < 256 := hb t0 (by simp)
          have ht1 : t1 < 256 := hb t1 (by simp)
          have ht2 : t2 < 256 := hb t2 (by simp)
          exact ⟨rfl, rfl, by omega, by simp only [List.length_cons]; omega,
            by simp only [be3]; omega⟩
        next => simp at h
      · simp only [readMessageHeader, if_neg hf0, if_neg hf1, if_neg hf2] at h
        rw [Option.some.injEq, Prod.mk.injEq] at h
        obtain ⟨hh, hc⟩ := h
        subst hh; subst hc
        exact ⟨rfl, rfl, by omega, by omega, by simp⟩

lemma parse_spec (data : List Nat) (hdr : RtmpHeader) (consumed : Nat)
    (hb : ∀ b ∈ data, b < 256)
    (h : RtmpHeader.parse data = some (hdr, consumed)) :
    consumed ≤ data.length ∧ hdr.format ≤ 3 ∧
    2 ≤ hdr.chunk_stream_id ∧ hdr.chunk_stream_id ≤ 65599 ∧
    consumed ≤ 14 ∧ hdr.timestamp ≤ 16777215 := by
  cases data with
  | nil => simp [RtmpHeader.parse] at h
  | cons firstByte rest =>
    simp only [RtmpHeader.parse] at h
    split at h
    next hcs0 =>
      cases rest with
      | nil => simp at h
      | cons b1 rest1 =>
        have hb1 : b1 < 256 := hb b1 (by simp)
        have hrest1 : ∀ b ∈ rest1, b < 256 := fun b hbm => hb b (by simp [hbm])
        obtain ⟨hf, hcs, hc11, hclen, hts⟩ :=
          readMessageHeader_spec _ _ _ _ _ _ hrest1 h
        refine ⟨?_, ?_, ?_, ?_, ?_, hts⟩
        · simp only [List.length_cons]; omega
        · rw [hf]; omega
        · omega
        · omega
        · omega
    next hcs0 =>
      split at h
      next hcs1 =>
        cases rest with
        | nil => simp at h
        | cons b1 rest' =>
          cases rest' with
          | nil => simp at h
          | cons b2 rest2 =>
            have hb1 : b1 < 256 := hb b1 (by simp)
            have hb2 : b2 < 256 := hb b2 (by simp)
            have hrest2 : ∀ b ∈ rest2, b < 256 := fun b hbm => hb b (by simp [hbm])
            obtain ⟨hf, hcs, hc11, hclen, hts⟩ :=
              readMessageHeader_spec _ _ _ _ _ _ hrest2 h
            refine ⟨?_, ?_, ?_, ?_, ?_, hts⟩
            · simp only [List.length_cons]; omega
            · rw [hf]; omega
            · omega
            · omega
            · omega
      next hcs1 =>
        have hrest : ∀ b ∈ rest, b < 256 := fun b hbm => hb b (by simp [hbm])
        obtain ⟨hf, hcs, hc11, hclen, hts⟩ :=
          readMessageHeader_spec _ _ _ _ _ _ hrest h
        refine ⟨?_, ?_, ?_, ?_, ?_, hts⟩
        · simp only [List.length_cons]; omega
        · rw [hf]; omega
        · omega
        · omega
        · omega

/-- C3 counterexample: a format-0 header whose 3-byte timestamp field is
`0xFFFFFF` followed by four candidate extension bytes `AA BB CC DD`: the
parser consumes 12 bytes (not 16) and reports timestamp `0xFFFFFF` (not
`0xAABBCCDD`) — the extended-timestamp escape is not honored. -/
theorem extended_timestamp_counterexample :
    RtmpHeader.parse extTsInput = some (⟨0, 3, 16777215, 5, 20, 0⟩, 12) ∧
    RtmpHeader.parse extTsInput ≠ some (⟨0, 3, 2864434397, 5, 20, 0⟩, 16) := by
  decide

/-- C3 amended: the header parser ignores the extended-timestamp escape:
for every input it consumes at most the basic header (up to 3 bytes) plus
the format-determined message header (up to 11 bytes) — never four
additional extension bytes — and the reported timestamp is always the raw
3-byte field value (at most `0xFFFFFF`), even when that value is
`0xFFFFFF`. -/
theorem parse_ignores_extended_timestamp (data : List Nat) (hdr : RtmpHeader) (consumed : Nat)
    (hb : ∀ b ∈ data, b < 256)
    (h : RtmpHeader.parse data = some (hdr, consumed)) :
    hdr.timestamp ≤ 16777215 ∧ consumed ≤ 14 :=
  have s := parse_spec data hdr consumed hb h
  ⟨s.2.2.2.2.2, s.2.2.2.2.1⟩

/-- C3 witness: at the escape input itself, the parsed timestamp is the
raw `0xFFFFFF` and only 12 bytes are consumed. -/
theorem parse_ignores_extended_timestamp_witness :
    (⟨0, 3, 16777215, 5, 20, 0⟩ : RtmpHeader).timestamp ≤ 16777215 ∧ (12 : Nat) ≤ 14 :=
  parse_ignores_extended_timestamp extTsInput ⟨0, 3, 16777215, 5, 20, 0⟩ 12
    (by decide) (by decide)

/-- C10: the chunk header parser is total — `none` on every slice too
short for the basic header, the extended chunk-stream-id bytes, or the
format-determined message header — and on success the consumed count never
exceeds the slice length, the format is at most 3, and the chunk-stream id
lies in 2..65599. -/
theorem parse_header_total_bounded (data : List Nat) (hdr : RtmpHeader) (consumed : Nat)
    (hb : ∀ b ∈ data, b < 256)
    (h : RtmpHeader.parse data = some (hdr, consumed)) :
    consumed ≤ data.length ∧ hdr.format ≤ 3 ∧
    2 ≤ hdr.chunk_stream_id ∧ hdr.chunk_stream_id ≤ 65599 :=
  have s := parse_spec data hdr consumed hb h
  ⟨s.1, s.2.1, s.2.2.1, s.2.2.2.1⟩

/-- C10 witness: the bounds at a concrete 14-byte buffer holding a
12-byte format-0 header and two payload bytes. -/
theorem parse_header_total_bounded_witness :
    (12 : Nat) ≤ ([3, 0, 0, 0, 0, 0, 2, 8, 0, 0, 0, 0, 170, 187] : List Nat).length ∧
    (⟨0, 3, 0, 2, 8, 0⟩ : RtmpHeader).format ≤ 3 ∧
    2 ≤ (⟨0, 3, 0, 2, 8, 0⟩ : RtmpHeader).chunk_stream_id ∧
    (⟨0, 3, 0, 2, 8, 0⟩ : RtmpHeader).chunk_stream_id ≤ 65599 :=
  parse_header_total_bounded [3, 0, 0, 0, 0, 0, 2, 8, 0, 0, 0, 0, 170, 187]
    ⟨0, 3, 0, 2, 8, 0⟩ 12 (by decide) (by decide)

/-! ## C4 — stream key validation -/

/-- The fixed bytes of `create_publish_response` before the description
string: `onStatus`, transaction id 0.0, null, then the information object
with level `status`, code `NetStream.Publish.Start` (declared length 26
for the 23-byte string, as in the source), and the `description` key with
its string marker. -/
def pubStartPrefix : List Nat :=
  [2] ++ be16 8 ++ asciiBytes "onStatus"
  ++ [0] ++ f64be_0
  ++ [5]
  ++ [3]
  ++ be16 5 ++ asciiBytes "level" ++ [2] ++ be16 6 ++ asciiBytes "status"
  ++ be16 4 ++ asciiBytes "code" ++ [2] ++ be16 26 ++ asciiBytes "NetStream.Publish.Start"
  ++ be16 11 ++ asciiBytes "description" ++ [2]

/-- C4 counterexample: a publish command with an EMPTY stream key is
answered with `onStatus NetStream.Publish.Start` — the response contains
the Start code and no `NetStream.Publish.BadName` — and the session goes
on; no validation or termination happens. -/
theorem publish_bad_key_counterexample :
    handleCommandPayload pubEmptyKeyPayload =
      [create_command_chunk (create_publish_response [])] ∧
    containsSeq (asciiBytes "NetStream.Publish.Start") (create_publish_response []) = true ∧
    containsSeq (asciiBytes "NetStream.Publish.BadName") (create_publish_response []) = false := by
  decide

/-- C4 amended: the server never validates the stream key: every publish
command that parses — whether its key is empty, contains `/` or `\`, or
exceeds 255 bytes — is answered with the `onStatus NetStream.Publish.Start`
response (whose code field declares length 26 for the 23-byte string), and
the session is not terminated; no `NetStream.Publish.BadName` path exists. -/
theorem publish_no_validation (payload : List Nat) (pc : List Nat × List Nat)
    (h1 : parse_rtmp_connect payload = none)
    (h2 : parse_rtmp_createstream payload = none)
    (h3 : parse_rtmp_publish payload = some pc) :
    handleCommandPayload payload = [create_command_chunk (create_publish_response pc.1)] ∧
    create_publish_response pc.1 =
      pubStartPrefix ++ be16 (26 + pc.1.length)
        ++ asciiBytes "Started publishing stream " ++ pc.1 ++ [0, 0, 9] := by
  constructor
  · simp only [handleCommandPayload, h1, h2, h3]
  · have h26 : (asciiBytes "Started publishing stream ").length = 26 := by decide
    simp [create_publish_response, pubStartPrefix, List.length_append, h26]

/-- C4 witness: the Start response at the empty stream key. -/
theorem publish_no_validation_witness :
    handleCommandPayload pubEmptyKeyPayload =
      [create_command_chunk (create_publish_response [])] ∧
    create_publish_response [] =
      pubStartPrefix ++ be16 (26 + ([] : List Nat).length)
        ++ asciiBytes "Started publishing stream " ++ [] ++ [0, 0, 9] :=
  publish_no_validation pubEmptyKeyPayload ([], asciiBytes "live")
    (by decide) (by decide) (by decide)

/-! ## C8 — connect decoder property skipping -/

lemma encodeVal_length_pos (v : AmfVal) : 1 ≤ (encodeVal v).length := by
  cases v <;> simp [encodeVal, be16]

lemma length_le_encodeProps (props : List (List Nat × AmfVal)) :
    props.length ≤ (encodeProps props).length := by
  induction props with
  | nil => simp [encodeProps]
  | cons p ps ih =>
    obtain ⟨n, v⟩ := p
    have h1 := encodeVal_length_pos v
    simp only [encodeProps, be16, List.length_cons, List.length_append]
    omega

lemma connectProps_step_str (fuel : Nat) (n s R : List Nat)
    (acc : List Nat × List Nat × List Nat)
    (hn : n.length < 65536) (hs : s.length < 65536) :
    connectProps (fuel + 1)
      ((n.length / 256 % 256) :: (n.length % 256) ::
        (n ++ 2 :: (s.length / 256 % 256) :: (s.length % 256) :: (s ++ R))) acc =
      connectProps fuel R
        (if n = asciiBytes "app" then (s, acc.2.1, acc.2.2)
         else if n = asciiBytes "flashVer" then (acc.1, s, acc.2.2)
         else if n = asciiBytes "tcUrl" then (acc.1, acc.2.1, s)
         else acc) := by
  have hL : n.length / 256 % 256 * 256 + n.length % 256 = n.length := by omega
  have hV : s.length / 256 % 256 * 256 + s.length % 256 = s.length := by omega
  rw [connectProps]
  simp_arith [List.getD_cons_zero, List.getD_cons_succ, List.drop_succ_cons, List.drop_zero,
    List.take_left, List.drop_left, List.length_cons, List.length_append, hL, hV]
  intro h1 h2 h3
  have hn0 : n.length = 0 := by omega
  rw [List.length_eq_zero] at hn0
  subst hn0
  simp at h3

lemma connectProps_step_num (fuel : Nat) (n b R : List Nat)
    (acc : List Nat × List Nat × List Nat)
    (hn : n.length < 65536) (hb : b.length = 8) :
    connectProps (fuel + 1)
      ((n.length / 256 % 256) :: (n.length % 256) :: (n ++ 0 :: (b ++ R))) acc =
      connectProps fuel R acc := by
  have hL : n.length / 256 % 256 * 256 + n.length % 256 = n.length := by omega
  have hdrop8 : (b ++ R).drop 8 = R := by rw [← hb]; exact List.drop_left _ _
  rw [connectProps]
  simp_arith [List.getD_cons_zero, List.getD_cons_succ, List.drop_succ_cons, List.drop_zero,
    List.take_left, List.drop_left, List.length_cons, List.length_append, hL, hdrop8]
  intro h1 h2 h3
  have hn0 : n.length = 0 := by omega
  rw [List.length_eq_zero] at hn0
  subst hn0
  simp at h3

lemma connectProps_step_bool (fuel : Nat) (n : List Nat) (bb : Nat) (R : List Nat)
    (acc : List Nat × List Nat × List Nat)
    (hn : n.length < 65536) :
    connectProps (fuel + 1)
      ((n.length / 256 % 256) :: (n.length % 256) :: (n ++ 1 :: bb :: R)) acc =
      connectProps fuel R acc := by
  have hL : n.length / 256 % 256 * 256 + n.length % 256 = n.length := by omega
  rw [connectProps]
  simp_arith [List.getD_cons_zero, List.getD_cons_succ, List.drop_succ_cons, List.drop_zero,
    List.take_left, List.drop_left, List.length_cons, List.length_append, hL]
  intro h1 h2 h3
  have hn0 : n.length = 0 := by omega
  rw [List.length_eq_zero] at hn0
  subst hn0
  simp at h3

lemma connectProps_encodeProps (props : List (List Nat × AmfVal)) :
    ∀ (fuel : Nat) (acc : List Nat × List Nat × List Nat),
      props.length < fuel → wfProps props = true →
      connectProps fuel (encodeProps props) acc = foldProps props acc := by
  induction props with
  | nil =>
    intro fuel acc hfuel _
    obtain ⟨f, rfl⟩ : ∃ f, fuel = f + 1 := ⟨fuel - 1, by omega⟩
    rw [connectProps]
    norm_num [encodeProps, foldProps]
  | cons p ps ih =>
    obtain ⟨n, v⟩ := p
    intro fuel acc hfuel hwf
    obtain ⟨f, rfl⟩ : ∃ f, fuel = f + 1 := ⟨fuel - 1, by omega⟩
    have hfuel' : ps.length < f := by
      simp only [List.length_cons] at hfuel; omega
    simp only [wfProps, List.all_cons, Bool.and_eq_true] at hwf
    obtain ⟨hw1, hwps⟩ := hwf
    have hwps' : wfProps ps = true := hwps
    cases v with
    | str s =>
      simp only [wfProp, Bool.and_eq_true, decide_eq_true_eq] at hw1
      obtain ⟨hn, hs⟩ := hw1
      have henc : encodeProps ((n, AmfVal.str s) :: ps) =
          (n.length / 256 % 256) :: (n.length % 256) ::
            (n ++ 2 :: (s.length / 256 % 256) :: (s.length % 256) ::
              (s ++ encodeProps ps)) := by
        simp [encodeProps, encodeVal, be16]
      rw [henc, connectProps_step_str f n s (encodeProps ps) acc hn hs, foldProps]
      exact ih f _ hfuel' hwps'
    | num b =>
      simp only [wfProp, Bool.and_eq_true, decide_eq_true_eq] at hw1
      obtain ⟨hn, hb⟩ := hw1
      have henc : encodeProps ((n, AmfVal.num b) :: ps) =
          (n.length / 256 % 256) :: (n.length % 256) :: (n ++ 0 :: (b ++ encodeProps ps)) := by
        simp [encodeProps, encodeVal, be16]
      rw [henc, connectProps_step_num f n b (encodeProps ps) acc hn hb, foldProps]
      · exact ih f _ hfuel' hwps'
      · rintro s hcontra
        cases hcontra
    | boolv bb =>
      simp only [wfProp, decide_eq_true_eq] at hw1
      have henc : encodeProps ((n, AmfVal.boolv bb) :: ps) =
          (n.length / 256 % 256) :: (n.length % 256) :: (n ++ 1 :: bb :: encodeProps ps) := by
        simp [encodeProps, encodeVal, be16]
      rw [henc, connectProps_step_bool f n bb (encodeProps ps) acc hw1, foldProps]
      · exact ih f _ hfuel' hwps'
      · rintro s hcontra
        cases hcontra
    | nullv => simp [wfProp] at hw1

/-- C8 counterexample: a connect command whose object carries a
null-valued property `test` before `app = "live"`: the decoder does not
skip the null by kind — it stops scanning — and the later `app` property is
lost (the decoder returns an empty `app` instead of `live`). -/
theorem connect_unknown_kind_counterexample :
    parse_rtmp_connect connectNullPropPayload = some ([], [], []) ∧
    parse_rtmp_connect connectNullPropPayload ≠ some (asciiBytes "live", [], []) := by
  decide

/-- C8 amended: the decoder skips extra properties by kind only for
Number (0x00) and Boolean (0x01) values — any string/number/boolean
property mix still yields exactly the last string values of `app`,
`flashVer`, `tcUrl` — but a property of any OTHER kind (null, object,
array, date, ...) aborts the scan and loses the listed properties after
it. -/
theorem connect_decoder_skips_by_kind (props : List (List Nat × AmfVal))
    (hwf : wfProps props = true) :
    parse_rtmp_connect (connectPayloadOfProps props) = some (foldProps props ([], [], [])) := by
  have hconn : asciiBytes "connect" = [99, 111, 110, 110, 101, 99, 116] := by decide
  have hpay : connectPayloadOfProps props =
      2 :: 0 :: 7 :: 99 :: 111 :: 110 :: 110 :: 101 :: 99 :: 116 ::
        0 :: 63 :: 240 :: 0 :: 0 :: 0 :: 0 :: 0 :: 0 :: 3 :: encodeProps props := by
    simp [connectPayloadOfProps, be16, f64be_1, hconn]
  have hbound : props.length < (encodeProps props).length + 20 := by
    have := length_le_encodeProps props
    omega
  rw [hpay, parse_rtmp_connect]
  simp_arith [List.getD_cons_zero, List.getD_cons_succ, List.drop_succ_cons, List.drop_zero,
    List.take_succ_cons, List.take_zero, List.length_cons, hconn]
  rw [connectProps_encodeProps props _ _ (by omega) hwf]

/-- C8 witness: a number-valued `objectEncoding`-style property before
`app = "live"` is skipped and `app` is still extracted. -/
theorem connect_decoder_skips_by_kind_witness :
    parse_rtmp_connect (connectPayloadOfProps
        [(asciiBytes "objectEncoding", AmfVal.num f64be_0),
         (asciiBytes "app", AmfVal.str (asciiBytes "live"))]) =
      some (foldProps
        [(asciiBytes "objectEncoding", AmfVal.num f64be_0),
         (asciiBytes "app", AmfVal.str (asciiBytes "live"))] ([], [], [])) :=
  connect_decoder_skips_by_kind
    [(asciiBytes "objectEncoding", AmfVal.num f64be_0),
     (asciiBytes "app", AmfVal.str (asciiBytes "live"))] (by decide)

end StreamX
